import Mathlib

/-
Verification of the livekit unified caller agent (src/agent.py, src/agent_server.py)
against its natural-language specification.

The embedding models:
  - JSON values and the fragment of json.loads the repository exercises
    (objects, arrays, escape-free strings, integers, null/true/false);
  - Python truthiness, the `in` operator, dict.get, and str.strip emptiness;
  - the entry router unified_entrypoint (agent.py lines 255-268);
  - the outbound flow outbound_entrypoint (agent.py lines 151-253), with the
    call-progress polling loop (lines 204-227) given both a per-read step
    function and a fuel-bounded runner (fuel bounds how many polls we observe;
    the source loop itself is `while True` and has no bound);
  - the HTTP dispatch endpoint start_call (agent_server.py lines 32-65),
    split into the request-model validation layer and the handler body.
-/

namespace CallerAgent

/-- JSON values as produced by json.loads: null, booleans, numbers
(restricted to integers, the only numerals the repository exchanges),
strings, arrays and objects. -/
inductive JsonVal where
  | jnull : JsonVal
  | jbool : Bool → JsonVal
  | jnum : Int → JsonVal
  | jstr : String → JsonVal
  | jarr : List JsonVal → JsonVal
  | jobj : List (String × JsonVal) → JsonVal

/-- Python truthiness of a JSON value: None, False, 0, empty string,
empty list and empty dict are falsy, everything else truthy. -/
def pyTruthy : JsonVal → Bool
  | JsonVal.jnull => false
  | JsonVal.jbool b => b
  | JsonVal.jnum n => !(n == 0)
  | JsonVal.jstr s => !s.isEmpty
  | JsonVal.jarr xs => !xs.isEmpty
  | JsonVal.jobj kvs => !kvs.isEmpty

/-- Last-binding lookup in an association list, matching Python dict
semantics where json.loads keeps the last of duplicate keys. -/
def dictLookup : List (String × JsonVal) → String → Option JsonVal
  | [], _ => none
  | kv :: rest, key =>
    match dictLookup rest key with
    | some w => some w
    | none => if kv.fst == key then some kv.snd else none

/-- Whether a JSON value equals the given string (element test used by the
Python `in` operator on lists). -/
def isStrEq (key : String) : JsonVal → Bool
  | JsonVal.jstr s => s == key
  | _ => false

/-- Whether pat occurs as a contiguous subsequence of hay (Python substring
test `pat in hay`). -/
def containsSeq (hay pat : List Char) : Bool :=
  match hay with
  | [] => pat.isEmpty
  | _ :: t => pat.isPrefixOf hay || containsSeq t pat

/-- Python exceptions the modelled code can raise. -/
inductive PyError where
  | valueError : String → PyError
  | typeError : PyError
  | attributeError : PyError
  | externalError : String → PyError
deriving Repr, DecidableEq

/-- Python `key in v`: key lookup on dicts, element test on lists,
substring test on strings, TypeError on any other value. -/
def pyIn (key : String) : JsonVal → Except PyError Bool
  | JsonVal.jobj kvs => Except.ok (kvs.any (fun kv => kv.fst == key))
  | JsonVal.jarr xs => Except.ok (xs.any (isStrEq key))
  | JsonVal.jstr s => Except.ok (containsSeq s.data key.data)
  | _ => Except.error PyError.typeError

/-- Python `v.get(key)`: on dicts returns the bound value or None;
on any non-dict value the attribute access raises AttributeError. -/
def pyGet (key : String) : JsonVal → Except PyError JsonVal
  | JsonVal.jobj kvs => Except.ok ((dictLookup kvs key).getD JsonVal.jnull)
  | _ => Except.error PyError.attributeError

/-- ASCII whitespace stripped by str.strip and skipped by the JSON lexer. -/
def isPySpace (c : Char) : Bool :=
  c == ' ' || c == '\t' || c == '\n' || c == '\r'

/-- Both-ends whitespace strip on a character list (str.strip). -/
def stripChars (cs : List Char) : List Char :=
  ((cs.dropWhile isPySpace).reverse.dropWhile isPySpace).reverse

/-- Whether s.strip() is empty, the emptiness test the outbound flow
applies to its raw metadata string. -/
def pyStripEmpty (s : String) : Bool :=
  (stripChars s.data).isEmpty

/-- Skip leading JSON whitespace. -/
def jskipWs : List Char → List Char
  | [] => []
  | c :: cs => if isPySpace c then jskipWs cs else c :: cs

/-- Parse the body of a JSON string after the opening quote; the
repository only exchanges escape-free strings, so a backslash fails. -/
def jparseStrBody : List Char → Option (String × List Char)
  | [] => none
  | c :: cs =>
    if c = '\x22' then some ("", cs)
    else if c = '\\' then none
    else
      match jparseStrBody cs with
      | some (s, r) => some (String.mk (c :: s.data), r)
      | none => none

/-- Split a leading run of decimal digits from the input. -/
def jtakeDigits : List Char → (List Char × List Char)
  | [] => ([], [])
  | c :: cs =>
    if c.isDigit then
      match jtakeDigits cs with
      | (ds, r) => (c :: ds, r)
    else ([], c :: cs)

/-- Numeric value of a digit run. -/
def digitsToNat (ds : List Char) : Nat :=
  ds.foldl (fun n c => n * 10 + (c.toNat - 48)) 0

mutual

/-- Fuel-bounded recursive-descent parser for one JSON value; the fuel
only bounds nesting and item count and is large enough at every use. -/
def jparseVal : Nat → List Char → Option (JsonVal × List Char)
  | 0, _ => none
  | fuel + 1, cs =>
    match jskipWs cs with
    | [] => none
    | c :: rest =>
      if c = '\x7b' then
        match jskipWs rest with
        | '\x7d' :: r => some (JsonVal.jobj [], r)
        | r => jparseObjItems fuel r
      else if c = '[' then
        match jskipWs rest with
        | ']' :: r => some (JsonVal.jarr [], r)
        | r => jparseArrItems fuel r
      else if c = '\x22' then
        match jparseStrBody rest with
        | some (s, r) => some (JsonVal.jstr s, r)
        | none => none
      else if c = '-' then
        match jtakeDigits rest with
        | ([], _) => none
        | (ds, r) => some (JsonVal.jnum (-(digitsToNat ds : Int)), r)
      else if c.isDigit then
        match jtakeDigits (c :: rest) with
        | ([], _) => none
        | (ds, r) => some (JsonVal.jnum (digitsToNat ds : Int), r)
      else if c = 'n' then
        match rest with
        | 'u' :: 'l' :: 'l' :: r => some (JsonVal.jnull, r)
        | _ => none
      else if c = 't' then
        match rest with
        | 'r' :: 'u' :: 'e' :: r => some (JsonVal.jbool true, r)
        | _ => none
      else if c = 'f' then
        match rest with
        | 'a' :: 'l' :: 's' :: 'e' :: r => some (JsonVal.jbool false, r)
        | _ => none
      else none

/-- Parse the members of a non-empty JSON object after the opening brace. -/
def jparseObjItems : Nat → List Char → Option (JsonVal × List Char)
  | 0, _ => none
  | fuel + 1, cs =>
    match jskipWs cs with
    | '\x22' :: rest =>
      match jparseStrBody rest with
      | none => none
      | some (key, r1) =>
        match jskipWs r1 with
        | ':' :: r2 =>
          match jparseVal fuel r2 with
          | none => none
          | some (v, r3) =>
            match jskipWs r3 with
            | '\x7d' :: r4 => some (JsonVal.jobj [(key, v)], r4)
            | ',' :: r4 =>
              match jparseObjItems fuel r4 with
              | some (JsonVal.jobj kvs, r5) => some (JsonVal.jobj ((key, v) :: kvs), r5)
              | _ => none
            | _ => none
        | _ => none
    | _ => none

/-- Parse the elements of a non-empty JSON array after the opening bracket. -/
def jparseArrItems : Nat → List Char → Option (JsonVal × List Char)
  | 0, _ => none
  | fuel + 1, cs =>
    match jparseVal fuel cs with
    | none => none
    | some (v, r1) =>
      match jskipWs r1 with
      | ']' :: r2 => some (JsonVal.jarr [v], r2)
      | ',' :: r2 =>
        match jparseArrItems fuel r2 with
        | some (JsonVal.jarr vs, r3) => some (JsonVal.jarr (v :: vs), r3)
        | _ => none
      | _ => none

end

/-- json.loads: parse one JSON document, rejecting trailing garbage;
any failure models the json.JSONDecodeError the Python call raises. -/
def json_loads (s : String) : Except Unit JsonVal :=
  match jparseVal (s.data.length + 1) s.data with
  | some (v, rest) => if (jskipWs rest).isEmpty then Except.ok v else Except.error ()
  | none => Except.error ()

/-- Which entrypoint the router hands the job to. -/
inductive Route where
  | outbound : Route
  | inbound : Route
deriving Repr, DecidableEq

/-- unified_entrypoint (agent.py lines 255-268): take the job's metadata
string, defaulting a falsy (empty) one; parse it, any parse exception
falling back to the empty dict; then branch on the Python membership test
for the key phone_number, which itself can raise (outside the try block)
when the parsed value is not a container. -/
def unified_entrypoint (metadata : String) : Except PyError Route :=
  let m := if metadata.isEmpty then "\x7b\x7d" else metadata
  let md : JsonVal :=
    match json_loads m with
    | Except.ok v => v
    | Except.error _ => JsonVal.jobj []
  match pyIn "phone_number" md with
  | Except.error e => Except.error e
  | Except.ok true => Except.ok Route.outbound
  | Except.ok false => Except.ok Route.inbound

/-- Terminal state of the call-progress polling loop, one constructor per
break site of the loop at agent.py lines 207-227. -/
inductive MonitorExit where
  | mACTIVE : MonitorExit
  | mTERMINATED : MonitorExit
  | mREJECTED : MonitorExit
  | mRING_TIMEOUT : MonitorExit
deriving Repr, DecidableEq

/-- One iteration of the polling loop: given the status read from the
participant attributes and the elapsed wall-clock seconds, decide whether
the loop breaks and with which terminal state, in the exact guard order of
the source: active, then terminated/rejected, then ringing past timeout,
else keep polling. -/
def monitorStep (status : Option String) (elapsed timeout : Nat) : Option MonitorExit :=
  if status = some "active" then some MonitorExit.mACTIVE
  else if status = some "terminated" then some MonitorExit.mTERMINATED
  else if status = some "rejected" then some MonitorExit.mREJECTED
  else if status = some "ringing" ∧ timeout < elapsed then some MonitorExit.mRING_TIMEOUT
  else none

/-- The loop's break decision at its i-th poll, over a trace of status
reads and a trace of elapsed times. -/
def monitorExitAt (statusAt : Nat → Option String) (elapsedAt : Nat → Nat)
    (timeout i : Nat) : Option MonitorExit :=
  monitorStep (statusAt i) (elapsedAt i) timeout

/-- Run the polling loop from poll index i, observing at most fuel polls:
returns the index and state of the first break, or none when the loop is
still polling after fuel iterations (the source loop is while True and
only ever leaves through a break). -/
def monitorRunAux (statusAt : Nat → Option String) (elapsedAt : Nat → Nat)
    (timeout : Nat) : Nat → Nat → Option (Nat × MonitorExit)
  | 0, _ => none
  | fuel + 1, i =>
    match monitorStep (statusAt i) (elapsedAt i) timeout with
    | some e => some (i, e)
    | none => monitorRunAux statusAt elapsedAt timeout fuel (i + 1)

/-- Run the polling loop from its first poll. -/
def monitorRun (statusAt : Nat → Option String) (elapsedAt : Nat → Nat)
    (timeout fuel : Nat) : Option (Nat × MonitorExit) :=
  monitorRunAux statusAt elapsedAt timeout fuel 0

/-- Metadata normalization of the outbound flow (agent.py lines 157-170):
default a falsy payload to the empty string; a whitespace-only string
becomes the empty dict; any other string must parse as JSON or the flow
raises ValueError; a non-string payload is used as is. -/
def outboundNormalizeMeta (rawIn : JsonVal) : Except PyError JsonVal :=
  let raw := if pyTruthy rawIn then rawIn else JsonVal.jstr ""
  match raw with
  | JsonVal.jstr s =>
    if pyStripEmpty s then Except.ok (JsonVal.jobj [])
    else
      match json_loads s with
      | Except.ok v => Except.ok v
      | Except.error _ => Except.error (PyError.valueError "Could not parse metadata JSON")
  | v => Except.ok v

/-- Metadata validation of the outbound flow (agent.py lines 157-175):
normalize, then read phone_number with .get — an AttributeError on
non-dict metadata — and raise ValueError on a non-truthy phone. Returns
the phone value on success. -/
def outboundMetaPhone (rawIn : JsonVal) : Except PyError JsonVal :=
  match outboundNormalizeMeta rawIn with
  | Except.error e => Except.error e
  | Except.ok metadata =>
    match pyGet "phone_number" metadata with
    | Except.error e => Except.error e
    | Except.ok phone =>
      if pyTruthy phone then Except.ok phone
      else Except.error (PyError.valueError "Missing phone_number in job metadata")

/-- Observable outcome of one outbound_entrypoint run: the exception that
aborted it (if any), whether create_sip_participant was requested, the
state the polling loop broke with (none while it is still polling),
whether an AgentSession was constructed and started, whether the greeting
generate_reply was issued, and whether any room deletion was requested —
the last is false on every path because the source contains no room
deletion call at all. -/
structure OutboundResult where
  raised : Option PyError
  sipCreated : Bool
  monitorExit : Option MonitorExit
  sessionCreated : Bool
  greetingSent : Bool
  roomDeletionRequested : Bool
deriving Repr, DecidableEq

/-- outbound_entrypoint (agent.py lines 151-253): normalize and validate
metadata (aborting with ValueError before any SIP action), create the SIP
participant and wait for it to join (sipOk and waitOk model those external
calls succeeding; on failure the exception is re-raised), run the polling
loop, and then — unconditionally, whatever state the loop broke with —
construct the AgentSession, start it and send the greeting. fuel bounds
how many polls we observe; a none monitorExit means the loop had not
broken within fuel polls and nothing after it has run. -/
def outbound_entrypoint (rawMeta : JsonVal) (sipOk waitOk : Bool)
    (statusAt : Nat → Option String) (elapsedAt : Nat → Nat) (fuel : Nat) : OutboundResult :=
  match outboundMetaPhone rawMeta with
  | Except.error e => ⟨some e, false, none, false, false, false⟩
  | Except.ok _ =>
    if !sipOk then ⟨some (PyError.externalError "create_sip_participant"), false, none, false, false, false⟩
    else if !waitOk then ⟨some (PyError.externalError "wait_for_participant"), true, none, false, false, false⟩
    else
      match monitorRun statusAt elapsedAt 30 fuel with
      | none => ⟨none, true, none, false, false, false⟩
      | some (_, e) => ⟨none, true, some e, true, true, false⟩

/-- Observable outcome of one POST /start_call request: HTTP status code,
whether the external lk dispatch process was spawned, and whether the body
was the reload-skip message. -/
structure StartCallOutcome where
  status : Nat
  processSpawned : Bool
  skipMessage : Bool
deriving Repr, DecidableEq

/-- Request-model validation of CallRequest (agent_server.py lines 24-26):
the JSON body must bind both room and phone_number to strings; pydantic
accepts any string including the empty one and rejects missing fields and
non-string values with a 422 validation error. -/
def validateCallRequest (body : List (String × JsonVal)) : Option (String × String) :=
  match dictLookup body "room", dictLookup body "phone_number" with
  | some (JsonVal.jstr r), some (JsonVal.jstr p) => some (r, p)
  | _, _ => none

/-- The reload-skip guard (agent_server.py line 34): os.getenv("RUN_MAIN")
is truthy (set and non-empty) and differs from "true". -/
def runMainSkip (runMain : Option String) : Bool :=
  match runMain with
  | none => false
  | some v => !v.isEmpty && !(v == "true")

/-- Handler body of start_call (agent_server.py lines 33-65) on an
already-validated request: if the reload-skip guard fires, return 200 with
the skip message and spawn nothing; otherwise spawn the lk dispatch
process, answering 200 on a zero exit code and 500 otherwise (dispatchOk
models the spawned process exiting zero). -/
def start_call (runMain : Option String) (dispatchOk : Bool)
    (_room _phone : String) : StartCallOutcome :=
  if runMainSkip runMain then ⟨200, false, true⟩
  else if dispatchOk then ⟨200, true, false⟩
  else ⟨500, true, false⟩

/-- The whole endpoint: framework validation of the JSON body into a
CallRequest, then the handler. -/
def start_call_endpoint (runMain : Option String) (dispatchOk : Bool)
    (body : List (String × JsonVal)) : StartCallOutcome :=
  match validateCallRequest body with
  | none => ⟨422, false, false⟩
  | some rp => start_call runMain dispatchOk rp.fst rp.snd

/-- Helper: given enough fuel, the fuel-bounded runner started at poll i
returns the first poll at or after i whose step breaks the loop. -/
theorem monitorRunAux_first (statusAt : Nat → Option String) (elapsedAt : Nat → Nat)
    (timeout : Nat) :
    ∀ (fuel i k : Nat) (e : MonitorExit), i ≤ k → k - i < fuel →
    (∀ j, i ≤ j → j < k → monitorExitAt statusAt elapsedAt timeout j = none) →
    monitorExitAt statusAt elapsedAt timeout k = some e →
    monitorRunAux statusAt elapsedAt timeout fuel i = some (k, e) := by
  intro fuel
  induction fuel with
  | zero =>
    intro i k e hik hlt _ _
    omega
  | succ fuel ih =>
    intro i k e hik hlt hnone hk
    by_cases hik' : i = k
    · subst hik'
      have hk' : monitorStep (statusAt i) (elapsedAt i) timeout = some e := hk
      simp only [monitorRunAux, hk']
    · have hi : i < k := lt_of_le_of_ne hik hik'
      have h0 : monitorStep (statusAt i) (elapsedAt i) timeout = none := hnone i le_rfl hi
      simp only [monitorRunAux, h0]
      exact ih (i + 1) k e (by omega) (by omega) (fun j hj1 hj2 => hnone j (by omega) hj2) hk

/-- C1: the claim asserts that when the monitor exits in state TERMINATED,
REJECTED or RING_TIMEOUT no conversation session is constructed and no
greeting is sent; the code violates this invariant. Evaluated on a call
whose status reads "rejected" at the first poll, the flow breaks out of
the loop with REJECTED and still constructs the AgentSession, starts it
and sends the greeting. -/
theorem outbound_starts_session_on_rejected_call :
    outbound_entrypoint (JsonVal.jstr "\x7b\"phone_number\": \"+15551234567\"\x7d")
      true true (fun _ => some "rejected") (fun i => i) 3 =
      ⟨none, true, some MonitorExit.mREJECTED, true, true, false⟩ :=
  rfl

/-- C2 counterexample: on a call that stays ringing past the timeout, the
monitor breaks with RING_TIMEOUT, yet no room deletion is requested and a
conversation session is constructed and greeted — refuting both cleanup
and never-construct parts of the claim. -/
theorem ring_timeout_no_cleanup_cex :
    outbound_entrypoint (JsonVal.jstr "\x7b\"phone_number\": \"+15551234567\"\x7d")
      true true (fun _ => some "ringing") (fun i => i + 31) 3 =
      ⟨none, true, some MonitorExit.mRING_TIMEOUT, true, true, false⟩ :=
  rfl

/-- C2 amended: when the polling loop breaks with RING_TIMEOUT on a job
whose metadata validated and whose SIP participant was created and joined,
the flow attempts no room deletion and still constructs the session and
sends the greeting. -/
theorem ring_timeout_behavior (rawMeta phone : JsonVal)
    (statusAt : Nat → Option String) (elapsedAt : Nat → Nat) (fuel k : Nat)
    (hphone : outboundMetaPhone rawMeta = Except.ok phone)
    (hrun : monitorRun statusAt elapsedAt 30 fuel = some (k, MonitorExit.mRING_TIMEOUT)) :
    outbound_entrypoint rawMeta true true statusAt elapsedAt fuel =
      ⟨none, true, some MonitorExit.mRING_TIMEOUT, true, true, false⟩ := by
  simp [outbound_entrypoint, hphone, hrun]

/-- Witness for the amended C2 at a concrete job and trace. -/
theorem ring_timeout_behavior_witness :
    outbound_entrypoint (JsonVal.jobj [("phone_number", JsonVal.jstr "+15559876543")])
      true true (fun _ => some "ringing") (fun i => i + 40) 2 =
      ⟨none, true, some MonitorExit.mRING_TIMEOUT, true, true, false⟩ :=
  ring_timeout_behavior (JsonVal.jobj [("phone_number", JsonVal.jstr "+15559876543")])
    (JsonVal.jstr "+15559876543") (fun _ => some "ringing") (fun i => i + 40) 2 0 rfl rfl

/-- C3 counterexample: with the status attribute absent at every poll and
the clock past the timeout from the first poll on, no poll ever breaks the
loop — the ringing-timeout clause requires the status to read exactly
"ringing", so polling runs unbounded and the runner observes no exit. -/
theorem monitor_nontermination_on_absent_status :
    (∀ i, monitorExitAt (fun _ => none) (fun j => j + 31) 30 i = none) ∧
    monitorRun (fun _ => none) (fun j => j + 31) 30 50 = none :=
  ⟨fun _ => rfl, rfl⟩

/-- C3 amended: if some poll is decisive — a definitive status, or
"ringing" with elapsed time past the timeout — the loop halts at the
first decisive poll, and that terminal transition is the only one (every
earlier poll stays in the loop); absent or unknown statuses are never
decisive, so without them polling runs unbounded. -/
theorem monitor_halts_on_decisive_poll (statusAt : Nat → Option String)
    (elapsedAt : Nat → Nat) (fuel k : Nat) (hfuel : k < fuel)
    (hk : monitorExitAt statusAt elapsedAt 30 k ≠ none) :
    ∃ j e, j ≤ k ∧ monitorRun statusAt elapsedAt 30 fuel = some (j, e) ∧
      (∀ i, i < j → monitorExitAt statusAt elapsedAt 30 i = none) := by
  have hP : ∃ n, monitorExitAt statusAt elapsedAt 30 n ≠ none := ⟨k, hk⟩
  have hj : monitorExitAt statusAt elapsedAt 30 (Nat.find hP) ≠ none := Nat.find_spec hP
  have hjle : Nat.find hP ≤ k := Nat.find_min' hP hk
  have hmin : ∀ i, i < Nat.find hP → monitorExitAt statusAt elapsedAt 30 i = none := by
    intro i hi
    have h2 := Nat.find_min hP hi
    by_contra h3
    exact h2 h3
  obtain ⟨e, he⟩ : ∃ e, monitorExitAt statusAt elapsedAt 30 (Nat.find hP) = some e := by
    cases hc : monitorExitAt statusAt elapsedAt 30 (Nat.find hP) with
    | none => exact absurd hc hj
    | some e => exact ⟨e, rfl⟩
  exact ⟨Nat.find hP, e, hjle,
    monitorRunAux_first statusAt elapsedAt 30 fuel 0 (Nat.find hP) e (Nat.zero_le _)
      (by omega) (fun j _ hj2 => hmin j hj2) he,
    hmin⟩

/-- Witness for the amended C3 at a concrete trace whose first poll reads
a definitive status. -/
theorem monitor_halts_on_decisive_poll_witness :
    ∃ j e, j ≤ 0 ∧ monitorRun (fun _ => some "terminated") (fun i => i) 30 5 = some (j, e) ∧
      (∀ i, i < j →
        monitorExitAt (fun _ => some "terminated") (fun i2 => i2) 30 i = none) :=
  monitor_halts_on_decisive_poll (fun _ => some "terminated") (fun i => i) 5 0
    (by omega) (by decide)

/-- C4 counterexample: metadata in which phone_number is present but bound
to the empty string routes to the outbound path, where the claim requires
the inbound path. -/
theorem route_outbound_on_empty_phone_cex :
    unified_entrypoint "\x7b\"phone_number\": \"\"\x7d" = Except.ok Route.outbound ∧
    unified_entrypoint "\x7b\"phone_number\": \"\"\x7d" ≠ Except.ok Route.inbound := by
  refine ⟨rfl, ?_⟩
  intro h
  exact absurd (Except.ok.inj h) (by decide)

/-- C4 amended: the router branches on key presence alone — metadata
parsing to a mapping that binds phone_number, to any value including the
empty string, routes outbound, and one without the key routes inbound. -/
theorem route_by_key_presence (s : String) (kvs : List (String × JsonVal))
    (hne : s.isEmpty = false)
    (hparse : json_loads s = Except.ok (JsonVal.jobj kvs)) :
    unified_entrypoint s =
      Except.ok (if kvs.any (fun kv => kv.fst == "phone_number") then Route.outbound
        else Route.inbound) := by
  simp only [unified_entrypoint, hne, Bool.false_eq_true, if_false, hparse, pyIn]
  cases h : kvs.any (fun kv => kv.fst == "phone_number") <;> simp [h]

/-- Witness for the amended C4 at concrete metadata carrying a phone
number. -/
theorem route_by_key_presence_witness :
    unified_entrypoint "\x7b\"phone_number\": \"+15557654321\"\x7d" =
      Except.ok (if [("phone_number", JsonVal.jstr "+15557654321")].any
        (fun kv => kv.fst == "phone_number") then Route.outbound else Route.inbound) :=
  route_by_key_presence "\x7b\"phone_number\": \"+15557654321\"\x7d"
    [("phone_number", JsonVal.jstr "+15557654321")] rfl rfl

/-- C5: every non-empty metadata string that fails to parse is treated as
the empty mapping and routed to the inbound path, with no exception
propagating to the caller. -/
theorem route_inbound_on_parse_failure (s : String) (hne : s.isEmpty = false)
    (hfail : json_loads s = Except.error ()) :
    unified_entrypoint s = Except.ok Route.inbound := by
  simp [unified_entrypoint, hne, hfail, pyIn]

/-- Witness for C5 at the malformed metadata string of the specification
scenario. -/
theorem route_inbound_on_parse_failure_witness :
    unified_entrypoint "\x7bnot-json" = Except.ok Route.inbound :=
  route_inbound_on_parse_failure "\x7bnot-json" rfl rfl

/-- C6 counterexample: a request binding phone_number to the empty string
is not rejected — request validation passes, and the dispatch process is
spawned, refuting rejection before any external process. -/
theorem dispatch_spawns_on_empty_phone_cex :
    start_call_endpoint none true
      [("room", JsonVal.jstr "room-1"), ("phone_number", JsonVal.jstr "")] =
      ⟨200, true, false⟩ :=
  rfl

/-- C6 amended: requests missing room or phone_number, or binding them to
non-strings, are rejected with a 422 validation failure before any process
is spawned; whenever both fields are present as strings — the empty string
included — and the reload-skip guard does not fire, the external dispatch
process is spawned. -/
theorem dispatch_validation_behavior (runMain : Option String) (dispatchOk : Bool)
    (body : List (String × JsonVal)) :
    (validateCallRequest body = none →
      start_call_endpoint runMain dispatchOk body = ⟨422, false, false⟩) ∧
    (∀ room phone, validateCallRequest body = some (room, phone) →
      runMainSkip runMain = false →
      (start_call_endpoint runMain dispatchOk body).processSpawned = true) := by
  constructor
  · intro h
    simp [start_call_endpoint, h]
  · intro room phone h hskip
    simp only [start_call_endpoint, h, start_call, hskip, Bool.false_eq_true, if_false]
    cases dispatchOk <;> rfl

/-- Witness for the amended C6: an empty body is rejected with 422 and no
process; a body with both fields as strings spawns the process. -/
theorem dispatch_validation_behavior_witness :
    start_call_endpoint none true [] = ⟨422, false, false⟩ ∧
    (start_call_endpoint none true
      [("room", JsonVal.jstr "r2"), ("phone_number", JsonVal.jstr "")]).processSpawned = true :=
  ⟨(dispatch_validation_behavior none true []).1 rfl,
   (dispatch_validation_behavior none true
      [("room", JsonVal.jstr "r2"), ("phone_number", JsonVal.jstr "")]).2 "r2" "" rfl rfl⟩

/-- C7: for every terminal status among active, terminated and rejected,
if the polling loop is still running and that status is visible at the
current poll, the loop breaks at that very poll — so the monitor performs
no further read once a terminal status is read. -/
theorem monitor_stops_at_first_terminal_read (statusAt : Nat → Option String)
    (elapsedAt : Nat → Nat) (timeout k fuel : Nat) (hfuel : k < fuel)
    (hprev : ∀ j, j < k → monitorExitAt statusAt elapsedAt timeout j = none)
    (hterm : statusAt k = some "active" ∨ statusAt k = some "terminated" ∨
      statusAt k = some "rejected") :
    ∃ e, monitorRun statusAt elapsedAt timeout fuel = some (k, e) := by
  have hex : ∃ e, monitorExitAt statusAt elapsedAt timeout k = some e := by
    rcases hterm with h | h | h
    · exact ⟨MonitorExit.mACTIVE, by simp [monitorExitAt, monitorStep, h]⟩
    · exact ⟨MonitorExit.mTERMINATED, by simp [monitorExitAt, monitorStep, h]⟩
    · exact ⟨MonitorExit.mREJECTED, by simp [monitorExitAt, monitorStep, h]⟩
  obtain ⟨e, he⟩ := hex
  exact ⟨e, monitorRunAux_first statusAt elapsedAt timeout fuel 0 k e (Nat.zero_le k)
    (by omega) (fun j _ hj => hprev j hj) he⟩

/-- Witness for C7 at a trace that rings once and then turns active. -/
theorem monitor_stops_at_first_terminal_read_witness :
    ∃ e, monitorRun (fun i => if i = 0 then some "ringing" else some "active")
      (fun i => i) 30 10 = some (1, e) :=
  monitor_stops_at_first_terminal_read
    (fun i => if i = 0 then some "ringing" else some "active") (fun i => i) 30 1 10
    (by omega)
    (fun j hj => by
      have hj0 : j = 0 := by omega
      subst hj0
      rfl)
    (Or.inl rfl)

/-- C8: the metadata string "5" parses successfully to the number 5, a
non-container value, and the router's membership test on it raises a
TypeError instead of producing a route — the fail-open fallback covers
only parse failures, not parse successes of the wrong shape. -/
theorem router_typeerror_on_scalar_metadata :
    json_loads "5" = Except.ok (JsonVal.jnum 5) ∧
    unified_entrypoint "5" = Except.error PyError.typeError :=
  ⟨rfl, rfl⟩

/-- C9 counterexample: with RUN_MAIN set to the empty string — a value
other than "true" — the truthiness guard does not fire: the handler
spawns the dispatch process and returns no skip message, refuting the
claim for that value. -/
theorem skip_guard_ignores_empty_runmain_cex :
    start_call (some "") true "room-9" "+15550000000" = ⟨200, true, false⟩ :=
  rfl

/-- C9 amended: for every validated request, while RUN_MAIN is set to any
non-empty value other than "true" the handler returns 200 with the skip
message and spawns no external process, regardless of room and phone. -/
theorem skip_guard_nonempty_runmain (v room phone : String) (dispatchOk : Bool)
    (hne : v.isEmpty = false) (hnt : v ≠ "true") :
    start_call (some v) dispatchOk room phone = ⟨200, false, true⟩ := by
  simp [start_call, runMainSkip, hne, hnt]

/-- Witness for the amended C9 with RUN_MAIN set to "false". -/
theorem skip_guard_nonempty_runmain_witness :
    start_call (some "false") true "room-7" "+15551112222" = ⟨200, false, true⟩ :=
  skip_guard_nonempty_runmain "false" "room-7" "+15551112222" true rfl (by decide)

/-- C10: inside the outbound flow metadata handling is fail-closed: a
string that is non-blank yet not valid JSON makes the flow raise
ValueError before any SIP participant is created, and metadata normalizing
to a mapping without a truthy phone_number likewise raises ValueError
before any SIP participant is created. -/
theorem outbound_metadata_fail_closed (sipOk waitOk : Bool)
    (statusAt : Nat → Option String) (elapsedAt : Nat → Nat) (fuel : Nat) :
    (∀ s : String, pyStripEmpty s = false → json_loads s = Except.error () →
      outbound_entrypoint (JsonVal.jstr s) sipOk waitOk statusAt elapsedAt fuel =
        ⟨some (PyError.valueError "Could not parse metadata JSON"),
          false, none, false, false, false⟩) ∧
    (∀ (raw : JsonVal) (kvs : List (String × JsonVal)),
      outboundNormalizeMeta raw = Except.ok (JsonVal.jobj kvs) →
      pyTruthy ((dictLookup kvs "phone_number").getD JsonVal.jnull) = false →
      outbound_entrypoint raw sipOk waitOk statusAt elapsedAt fuel =
        ⟨some (PyError.valueError "Missing phone_number in job metadata"),
          false, none, false, false, false⟩) := by
  constructor
  · intro s hstrip hfail
    have hne : s.isEmpty = false := by
      cases hc : s.isEmpty with
      | false => rfl
      | true =>
        have hs : s = "" := (String.isEmpty_iff s).mp hc
        rw [hs] at hstrip
        exact absurd hstrip (by decide)
    simp [outbound_entrypoint, outboundMetaPhone, outboundNormalizeMeta, pyTruthy,
      hne, hstrip, hfail]
  · intro raw kvs hnorm hphone
    simp [outbound_entrypoint, outboundMetaPhone, hnorm, pyGet, hphone]

/-- Witness for C10 at a malformed metadata string and at mapping metadata
with an empty phone number. -/
theorem outbound_metadata_fail_closed_witness :
    outbound_entrypoint (JsonVal.jstr "\x7bbad") true true (fun _ => none) (fun i => i) 1 =
      ⟨some (PyError.valueError "Could not parse metadata JSON"),
        false, none, false, false, false⟩ ∧
    outbound_entrypoint (JsonVal.jobj [("phone_number", JsonVal.jstr "")]) true true
      (fun _ => none) (fun i => i) 1 =
      ⟨some (PyError.valueError "Missing phone_number in job metadata"),
        false, none, false, false, false⟩ :=
  ⟨(outbound_metadata_fail_closed true true (fun _ => none) (fun i => i) 1).1
      "\x7bbad" rfl rfl,
   (outbound_metadata_fail_closed true true (fun _ => none) (fun i => i) 1).2
      (JsonVal.jobj [("phone_number", JsonVal.jstr "")])
      [("phone_number", JsonVal.jstr "")] rfl rfl⟩

end CallerAgent
